import Mathlib

/-!
Shallow embedding of the social-graph content service (Express/Mongoose
backend: routes `feed.js`, `posts.js`, `comments.js`, `users.js` and the
Mongoose models `Post`, `Comment`, `Follow`).

The durable store is modelled as lists held in a `DB` record, in insertion
order (MongoDB natural order).  Each Express route handler becomes a pure
Lean function from the request data and the current `DB` to a response
record and the next `DB`.  Object ids are `Nat`, timestamps are `Nat`.
-/

namespace Instamini

/-- A `Post` document (`models/Post.js`): owner `user`, `imageUrl`,
`caption`, array of liker ids `likes`, creation timestamp from
`timestamps: true`.  `id` is the Mongo `_id`. -/
structure Post where
  id : Nat
  user : Nat
  imageUrl : String
  caption : String
  likes : List Nat
  createdAt : Nat
deriving Repr, DecidableEq

/-- A `Comment` document (`models/Comment.js`): parent `post` id, author
`user`, `text`, creation timestamp. -/
structure Comment where
  id : Nat
  post : Nat
  user : Nat
  text : String
  createdAt : Nat
deriving Repr, DecidableEq

/-- A `Follow` document: directed edge `follower → following`. -/
structure FollowEdge where
  follower : Nat
  following : Nat
deriving Repr, DecidableEq

/-- The backing store: users (only their ids matter here), posts, comments
and follow edges, each in insertion order; `nextId` models Mongo id
generation and `now` the clock used for `createdAt`. -/
structure DB where
  users : List Nat
  posts : List Post
  comments : List Comment
  follows : List FollowEdge
  nextId : Nat
  now : Nat
deriving Repr, DecidableEq

/-- `Post.findById` / the lookup done by the routes: first document whose
`_id` matches. -/
def getPostById (db : DB) (postId : Nat) : Option Post :=
  db.posts.find? (fun p => p.id == postId)

/-- JavaScript `parseInt` restricted to base-10 input as the query strings
use: skip leading whitespace, optional sign, then leading decimal digits;
`none` models `NaN`. -/
def parseIntJS (s : String) : Option Int :=
  let cs := s.toList.dropWhile (fun c => c == ' ' || c == '\t' || c == '\n' || c == '\r')
  let signAndRest : Int × List Char :=
    match cs with
    | '-' :: rest => (-1, rest)
    | '+' :: rest => (1, rest)
    | _ => (1, cs)
  let digits := signAndRest.2.takeWhile Char.isDigit
  if digits.isEmpty then none
  else some (signAndRest.1 * (digits.foldl (fun a c => a * 10 + (c.toNat - 48)) 0 : Nat))

/-- The `parseInt(x) || d` idiom of `feed.js` lines 14-15: `NaN` (here
`none`) and `0` are falsy and give the default. -/
def jsOr (v : Option Int) (d : Int) : Int :=
  match v with
  | none => d
  | some n => if n = 0 then d else n

/-- `parseInt(req.query.page)` where the query parameter may be absent
(`parseInt(undefined)` is `NaN`). -/
def parseQuery (q : Option String) : Option Int :=
  q.bind parseIntJS

/-- Insert a post into a list already sorted by `createdAt` descending,
after every post with a greater-or-equal timestamp (stable placement). -/
def insertCreatedDesc (p : Post) : List Post → List Post
  | [] => [p]
  | q :: qs => if p.createdAt ≤ q.createdAt then q :: insertCreatedDesc p qs else p :: q :: qs

/-- The model of `.sort({ createdAt: -1 })` in `feed.js` line 28: a stable
sort of the filtered documents by `createdAt` descending; documents with
equal timestamps keep their natural (insertion) order — the query has no
secondary sort key. -/
def sortCreatedDesc (l : List Post) : List Post :=
  l.foldl (fun acc p => insertCreatedDesc p acc) []

/-- `feed.js` lines 19-23: the ids followed by the viewer, with the
id of the viewer pushed at the end. -/
def feedScope (db : DB) (viewer : Nat) : List Nat :=
  ((db.follows.filter (fun f => f.follower == viewer)).map (fun f => f.following)) ++ [viewer]

/-- `Post.find({ user: { $in: followingIds } })`: the posts whose author is
in the feed scope, in natural order. -/
def feedCandidates (db : DB) (viewer : Nat) : List Post :=
  db.posts.filter (fun p => (feedScope db viewer).contains p.user)

/-- A post of a feed page annotated with the per-viewer derived fields
(`feed.js` lines 36-45). -/
structure Annotated where
  post : Post
  isLiked : Bool
  commentCount : Nat
deriving Repr, DecidableEq

/-- `feed.js` lines 36-45: the per-post loop.  For each post of the page
it issues one `Comment.countDocuments({ post: post._id })` store call and
checks `post.likes.includes(req.user.id)` in memory.  The second component
counts the count-store operations issued: one per post. -/
def annotateLoop (db : DB) (viewer : Nat) : List Post → List Annotated × Nat
  | [] => ([], 0)
  | p :: ps =>
    let cc := (db.comments.filter (fun c => c.post == p.id)).length
    let rest := annotateLoop db viewer ps
    (⟨p, p.likes.contains viewer, cc⟩ :: rest.1, rest.2 + 1)

/-- Modelled from the spec: the Engagement Aggregator of §4.4 is absent
from the source (`feed.js` uses the per-post loop above); this follows the
words of the spec — `commentCount` obtained "via a single grouped-count
operation keyed by the batch of post ids", then joined back to the posts.
The second component counts the count-store operations issued: one for the
whole batch. -/
def annotateGroupedSpec (db : DB) (viewer : Nat) (ps : List Post) : List Annotated × Nat :=
  let ids := ps.map (fun p => p.id)
  let grouped : List (Nat × Nat) :=
    ids.map (fun i => (i, (db.comments.filter (fun c => c.post == i)).length))
  (ps.map (fun p =>
    ⟨p, p.likes.contains viewer, ((grouped.lookup p.id).getD 0)⟩), 1)

/-- The page of posts returned by the feed query (`feed.js` lines 14-30):
filter by scope, sort by `createdAt` descending, then `skip`/`limit`. -/
def feedPagePosts (db : DB) (viewer : Nat) (pageQ limitQ : Option String) : List Post :=
  let page := jsOr (parseQuery pageQ) 1
  let limit := jsOr (parseQuery limitQ) 10
  let skip := (page - 1) * limit
  ((sortCreatedDesc (feedCandidates db viewer)).drop skip.toNat).take limit.toNat

/-- The number of `Comment.countDocuments` store calls a feed request
issues while annotating its page. -/
def feedCommentCountOps (db : DB) (viewer : Nat) (pageQ limitQ : Option String) : Nat :=
  (annotateLoop db viewer (feedPagePosts db viewer pageQ limitQ)).2

/-- The response of `GET /api/feed` (`feed.js` lines 47-56): the annotated
page plus the pagination metadata object. -/
structure FeedResult where
  status : Nat
  success : Bool
  posts : List Annotated
  page : Int
  limit : Int
  total : Nat
  pages : Nat
deriving Repr, DecidableEq

/-- `GET /api/feed` (`feed.js` lines 12-64).  `total` is
`Post.countDocuments` with the same scope filter; `pages` is
`Math.ceil(total / limit)`. -/
def feedHandler (db : DB) (viewer : Nat) (pageQ limitQ : Option String) : FeedResult :=
  let page := jsOr (parseQuery pageQ) 1
  let limit := jsOr (parseQuery limitQ) 10
  let pagePosts := feedPagePosts db viewer pageQ limitQ
  let total := (feedCandidates db viewer).length
  let annotated := (annotateLoop db viewer pagePosts).1
  { status := 200
    success := true
    posts := annotated
    page := page
    limit := limit
    total := total
    pages := (total + limit.toNat - 1) / limit.toNat }

/-- The response shape shared by the mutation routes: HTTP status, the
`success` flag, an optional `message`, and the `errors` array produced by
`express-validator` on validation failure (`errors.array()`, one entry per
failed check; empty when the field is absent from the JSON body). -/
structure SimpleRes where
  status : Nat
  success : Bool
  message : Option String := none
  errors : List String := []
deriving Repr, DecidableEq

/-- Abstraction of the `isURL()` check of `express-validator` on the image URL
(the validator library is external to the repository): a non-empty string
without spaces that contains a dot.  The claims below depend only on the
empty string failing it. -/
def isURL (s : String) : Bool :=
  !s.isEmpty && !(s.toList.contains ' ') && (s.toList.contains '.')

/-- The validation chain of `POST /api/posts` (`posts.js` lines 12-21):
`imageUrl` must be non-empty and a URL, `caption` is optional with at most
2200 characters.  Each failed check contributes its message. -/
def createPostErrors (imageUrl : String) (caption : Option String) : List String :=
  (if imageUrl.isEmpty then ["Image URL is required"] else []) ++
  (if !isURL imageUrl then ["Please provide a valid URL"] else []) ++
  (match caption with
   | none => []
   | some c => if c.length > 2200 then ["Caption cannot exceed 2200 characters"] else [])

/-- `POST /api/posts` (`posts.js` lines 12-54): on validation failure a 400
with `success:false` and the `errors` array; otherwise create the post
(empty like set, `caption || ''`) and answer 201. -/
def createPostHandler (db : DB) (userId : Nat) (imageUrl : String) (caption : Option String) :
    SimpleRes × DB :=
  let errs := createPostErrors imageUrl caption
  if !errs.isEmpty then
    ({ status := 400, success := false, errors := errs }, db)
  else
    let post : Post :=
      { id := db.nextId, user := userId, imageUrl := imageUrl,
        caption := caption.getD "", likes := [], createdAt := db.now }
    ({ status := 201, success := true },
     { db with posts := db.posts ++ [post], nextId := db.nextId + 1 })

/-- `GET /api/posts/:id` (`posts.js` lines 59-94): 404 when the post is
absent, otherwise 200 with the post, its comments (created desc) and the
`isLiked` flag of the viewer. -/
structure GetPostRes where
  status : Nat
  success : Bool
  message : Option String := none
  post : Option Post := none
  isLiked : Bool := false
deriving Repr, DecidableEq

def getPostHandler (db : DB) (viewer : Nat) (postId : Nat) : GetPostRes :=
  match getPostById db postId with
  | none => { status := 404, success := false, message := some "Post not found" }
  | some post =>
    { status := 200, success := true, post := some post,
      isLiked := post.likes.contains viewer }

/-- `DELETE /api/posts/:id` (`posts.js` lines 99-135): 404 when absent,
401 when the requester is not the owner, otherwise
`Comment.deleteMany({ post: post._id })` then `post.deleteOne()`. -/
def deletePostHandler (db : DB) (requester : Nat) (postId : Nat) : SimpleRes × DB :=
  match getPostById db postId with
  | none => ({ status := 404, success := false, message := some "Post not found" }, db)
  | some post =>
    if post.user ≠ requester then
      ({ status := 401, success := false,
         message := some "Not authorized to delete this post" }, db)
    else
      ({ status := 200, success := true, message := some "Post deleted successfully" },
       { db with
         comments := db.comments.filter (fun c => !(c.post == post.id))
         posts := db.posts.filter (fun p => !(p.id == post.id)) })

/-- The response of the like/unlike routes, carrying the resulting
`likeCount` on success. -/
structure LikeRes where
  status : Nat
  success : Bool
  message : Option String := none
  likeCount : Option Nat := none
deriving Repr, DecidableEq

/-- `POST /api/posts/:id/like` (`posts.js` lines 140-175): 404 when the
post is absent, 400 when the viewer already appears in `likes`, otherwise
push the viewer onto `likes` and save. -/
def likeHandler (db : DB) (userId : Nat) (postId : Nat) : LikeRes × DB :=
  match getPostById db postId with
  | none => ({ status := 404, success := false, message := some "Post not found" }, db)
  | some post =>
    if post.likes.contains userId then
      ({ status := 400, success := false,
         message := some "You have already liked this post" }, db)
    else
      ({ status := 200, success := true, message := some "Post liked successfully",
         likeCount := some (post.likes.length + 1) },
       { db with posts := db.posts.map (fun p =>
           if p.id == post.id then { p with likes := p.likes ++ [userId] } else p) })

/-- `DELETE /api/posts/:id/like` (`posts.js` lines 180-215): 404 when the
post is absent, 400 when the viewer is not in `likes`, otherwise filter the
viewer out of `likes` and save. -/
def unlikeHandler (db : DB) (userId : Nat) (postId : Nat) : LikeRes × DB :=
  match getPostById db postId with
  | none => ({ status := 404, success := false, message := some "Post not found" }, db)
  | some post =>
    if !(post.likes.contains userId) then
      ({ status := 400, success := false,
         message := some "You have not liked this post" }, db)
    else
      let newLikes := post.likes.filter (fun i => !(i == userId))
      ({ status := 200, success := true, message := some "Post unliked successfully",
         likeCount := some newLikes.length },
       { db with posts := db.posts.map (fun p =>
           if p.id == post.id then { p with likes := p.likes.filter (fun i => !(i == userId)) } else p) })

/-- JavaScript string trimming as applied by the `.trim()` sanitizer of
`express-validator`: drop leading and trailing whitespace.  Written over
the character list so that concrete inputs evaluate inside the kernel. -/
def trimJS (s : String) : String :=
  ⟨((s.toList.dropWhile Char.isWhitespace).reverse.dropWhile Char.isWhitespace).reverse⟩

/-- The validation chain of `POST /api/posts/:id/comments` (`posts.js`
lines 220-226): `text` is trimmed (sanitizer), must be non-empty, at most
1000 characters. -/
def addCommentErrors (text : String) : List String :=
  (if (trimJS text).isEmpty then ["Comment text is required"] else []) ++
  (if (trimJS text).length > 1000 then ["Comment cannot exceed 1000 characters"] else [])

/-- `POST /api/posts/:id/comments` (`posts.js` lines 220-266): validation
first (400 with `errors`), then post existence (404), then create the
comment with the trimmed text. -/
def addCommentHandler (db : DB) (userId : Nat) (postId : Nat) (text : String) :
    SimpleRes × DB :=
  let errs := addCommentErrors text
  if !errs.isEmpty then
    ({ status := 400, success := false, errors := errs }, db)
  else
    match getPostById db postId with
    | none => ({ status := 404, success := false, message := some "Post not found" }, db)
    | some _ =>
      let comment : Comment :=
        { id := db.nextId, post := postId, user := userId,
          text := trimJS text, createdAt := db.now }
      ({ status := 201, success := true },
       { db with comments := db.comments ++ [comment], nextId := db.nextId + 1 })

/-- Stable insertion of a comment into a list sorted by `createdAt`
descending, mirroring `insertCreatedDesc` for posts. -/
def insertCommentCreatedDesc (c : Comment) : List Comment → List Comment
  | [] => [c]
  | d :: ds =>
    if c.createdAt ≤ d.createdAt then d :: insertCommentCreatedDesc c ds else c :: d :: ds

/-- Model of `.sort({ createdAt: -1 })` on a comment query. -/
def sortCommentsCreatedDesc (l : List Comment) : List Comment :=
  l.foldl (fun acc c => insertCommentCreatedDesc c acc) []

/-- The response of `GET /api/posts/:id/comments`. -/
structure ListCommentsRes where
  status : Nat
  success : Bool
  comments : List Comment
deriving Repr, DecidableEq

/-- `GET /api/posts/:id/comments` (`posts.js` lines 271-288): the route
queries `Comment.find({ post: req.params.id })` directly and never looks
the post up, so it always answers 200. -/
def listCommentsHandler (db : DB) (postId : Nat) : ListCommentsRes :=
  { status := 200, success := true,
    comments := sortCommentsCreatedDesc (db.comments.filter (fun c => c.post == postId)) }

/-- `DELETE /api/comments/:id` (`comments.js` lines 10-42): 404 when
absent, 401 when the requester is not the author, otherwise delete. -/
def deleteCommentHandler (db : DB) (requester : Nat) (commentId : Nat) : SimpleRes × DB :=
  match db.comments.find? (fun c => c.id == commentId) with
  | none => ({ status := 404, success := false, message := some "Comment not found" }, db)
  | some comment =>
    if comment.user ≠ requester then
      ({ status := 401, success := false,
         message := some "Not authorized to delete this comment" }, db)
    else
      ({ status := 200, success := true, message := some "Comment deleted successfully" },
       { db with comments := db.comments.filter (fun c => !(c.id == comment.id)) })

/-- `POST /api/users/:id/follow` (`users.js` lines 158-207): self-check
first, then target existence, then duplicate-edge check, then
`Follow.create`. -/
def followHandler (db : DB) (me : Nat) (target : Nat) : SimpleRes × DB :=
  if target = me then
    ({ status := 400, success := false, message := some "You cannot follow yourself" }, db)
  else if !(db.users.contains target) then
    ({ status := 404, success := false, message := some "User not found" }, db)
  else
    match db.follows.find? (fun f => f.follower == me && f.following == target) with
    | some _ =>
      ({ status := 400, success := false,
         message := some "You are already following this user" }, db)
    | none =>
      ({ status := 200, success := true, message := some "Successfully followed user" },
       { db with follows := db.follows ++ [⟨me, target⟩] })

/-- `DELETE /api/users/:id/follow` (`users.js` lines 212-246): self-check
first, then `Follow.findOneAndDelete` — delete of the first matching edge,
400 when none exists. -/
def unfollowHandler (db : DB) (me : Nat) (target : Nat) : SimpleRes × DB :=
  if target = me then
    ({ status := 400, success := false, message := some "You cannot unfollow yourself" }, db)
  else
    match db.follows.find? (fun f => f.follower == me && f.following == target) with
    | none =>
      ({ status := 400, success := false,
         message := some "You are not following this user" }, db)
    | some _ =>
      ({ status := 200, success := true, message := some "Successfully unfollowed user" },
       { db with follows := db.follows.eraseP (fun f => f.follower == me && f.following == target) })

/-! Concrete stores used to evaluate the routes on explicit inputs. -/

/-- Two posts by user 1 with the same `createdAt`, inserted as id 1 then
id 2. -/
def dbTie : DB :=
  { users := [1]
    posts := [⟨1, 1, "a.jpg", "", [], 5⟩, ⟨2, 1, "b.jpg", "", [], 5⟩]
    comments := []
    follows := []
    nextId := 3
    now := 10 }

/-- Two posts by user 1, with comments on post 1. -/
def dbTwoPosts : DB :=
  { users := [1, 2]
    posts := [⟨1, 1, "a.jpg", "", [], 5⟩, ⟨2, 1, "b.jpg", "", [], 7⟩]
    comments := [⟨3, 1, 2, "hi", 6⟩, ⟨4, 1, 2, "again", 8⟩]
    follows := []
    nextId := 5
    now := 10 }

/-- A store with no posts and no comments. -/
def dbEmpty : DB :=
  { users := [1], posts := [], comments := [], follows := [], nextId := 1, now := 0 }

/-- User 1 already follows user 2. -/
def dbFollowing : DB :=
  { users := [1, 2], posts := [], comments := [], follows := [⟨1, 2⟩], nextId := 1, now := 0 }

/-- Users 1 and 2 with no follow edges. -/
def dbNoEdges : DB :=
  { users := [1, 2], posts := [], comments := [], follows := [], nextId := 1, now := 0 }

/-- Post 1 is liked by user 7; post 2 has no likes.  Post 1 carries one
comment. -/
def dbLikes : DB :=
  { users := [1, 7]
    posts := [⟨1, 1, "a.jpg", "", [7], 5⟩, ⟨2, 1, "b.jpg", "", [], 6⟩]
    comments := [⟨3, 1, 7, "nice", 6⟩]
    follows := []
    nextId := 4
    now := 10 }

/-- User 1 follows user 2; user 2 has one post, user 1 has one post. -/
def dbFeedSelf : DB :=
  { users := [1, 2]
    posts := [⟨1, 2, "a.jpg", "", [], 3⟩, ⟨2, 1, "b.jpg", "", [], 4⟩]
    comments := []
    follows := [⟨1, 2⟩]
    nextId := 3
    now := 10 }

/-- The pairwise ordering property claimed of a feed page: whenever two
posts appear in this order with equal `createdAt`, the earlier one has the
larger id (identifier-descending tie-break). -/
def idTieBreakDesc (l : List Post) : Prop :=
  List.Pairwise (fun a b => a.createdAt = b.createdAt → b.id < a.id) l

instance (l : List Post) : Decidable (idTieBreakDesc l) := by
  unfold idTieBreakDesc
  exact List.instDecidablePairwise l

/-! Helper lemmas about the sort and the annotation loop. -/

theorem mem_insertCreatedDesc (x p : Post) (l : List Post)
    (h : x ∈ insertCreatedDesc p l) : x = p ∨ x ∈ l := by
  induction l with
  | nil => simpa [insertCreatedDesc] using h
  | cons q qs ih =>
    by_cases hc : p.createdAt ≤ q.createdAt
    · rw [insertCreatedDesc, if_pos hc] at h
      rcases List.mem_cons.mp h with h1 | h2
      · exact Or.inr (by simp [h1])
      · rcases ih h2 with h3 | h4
        · exact Or.inl h3
        · exact Or.inr (List.mem_cons_of_mem _ h4)
    · rw [insertCreatedDesc, if_neg hc] at h
      rcases List.mem_cons.mp h with h1 | h2
      · exact Or.inl h1
      · exact Or.inr h2

theorem pairwise_insertCreatedDesc (p : Post) (l : List Post)
    (h : l.Pairwise (fun a b => b.createdAt ≤ a.createdAt)) :
    (insertCreatedDesc p l).Pairwise (fun a b => b.createdAt ≤ a.createdAt) := by
  induction l with
  | nil => simp [insertCreatedDesc]
  | cons q qs ih =>
    rcases List.pairwise_cons.mp h with ⟨hq, hqs⟩
    by_cases hc : p.createdAt ≤ q.createdAt
    · rw [insertCreatedDesc, if_pos hc]
      refine List.pairwise_cons.mpr ⟨?_, ih hqs⟩
      intro x hx
      rcases mem_insertCreatedDesc x p qs hx with rfl | hxq
      · exact hc
      · exact hq x hxq
    · rw [insertCreatedDesc, if_neg hc]
      refine List.pairwise_cons.mpr ⟨?_, h⟩
      intro x hx
      rcases List.mem_cons.mp hx with rfl | hxq
      · exact le_of_lt (lt_of_not_le hc)
      · exact le_trans (hq x hxq) (le_of_lt (lt_of_not_le hc))

theorem pairwise_sortCreatedDesc_aux (l acc : List Post)
    (h : acc.Pairwise (fun a b => b.createdAt ≤ a.createdAt)) :
    (l.foldl (fun acc p => insertCreatedDesc p acc) acc).Pairwise
      (fun a b => b.createdAt ≤ a.createdAt) := by
  induction l generalizing acc with
  | nil => simpa using h
  | cons p ps ih => exact ih _ (pairwise_insertCreatedDesc p acc h)

theorem pairwise_sortCreatedDesc (l : List Post) :
    (sortCreatedDesc l).Pairwise (fun a b => b.createdAt ≤ a.createdAt) :=
  pairwise_sortCreatedDesc_aux l [] (by simp)

theorem annotateLoop_fst (db : DB) (viewer : Nat) (l : List Post) :
    (annotateLoop db viewer l).1 =
      l.map (fun p =>
        ⟨p, p.likes.contains viewer, (db.comments.filter (fun c => c.post == p.id)).length⟩) := by
  induction l with
  | nil => rfl
  | cons p ps ih => simp [annotateLoop, ih]

theorem annotateLoop_snd (db : DB) (viewer : Nat) (l : List Post) :
    (annotateLoop db viewer l).2 = l.length := by
  induction l with
  | nil => rfl
  | cons p ps ih => simp [annotateLoop, ih]

theorem lookup_map_count (f : Nat → Nat) (k : Nat) (ids : List Nat) (hk : k ∈ ids) :
    (ids.map (fun i => (i, f i))).lookup k = some (f k) := by
  induction ids with
  | nil => cases hk
  | cons i rest ih =>
    by_cases h : k = i
    · subst h; simp [List.lookup]
    · rcases List.mem_cons.mp hk with h1 | h2
      · exact absurd h1 h
      · have hbeq : (k == i) = false := beq_eq_false_iff_ne.mpr h
        simp [List.lookup, hbeq, ih h2]

/-! Theorems settling the claims. -/

/-- C1 (amended): every feed page is ordered by created timestamp
descending; the query has no identifier tie-break, so nothing relates the
ids of equal-timestamp posts. -/
theorem feed_sorted_created_desc (db : DB) (viewer : Nat) (pageQ limitQ : Option String) :
    (feedHandler db viewer pageQ limitQ).posts.Pairwise
      (fun a b => b.post.createdAt ≤ a.post.createdAt) := by
  have hsorted := pairwise_sortCreatedDesc (feedCandidates db viewer)
  have hpage : (feedPagePosts db viewer pageQ limitQ).Pairwise
      (fun a b => b.createdAt ≤ a.createdAt) := by
    unfold feedPagePosts
    exact List.Pairwise.sublist
      ((List.take_sublist _ _).trans (List.drop_sublist _ _)) hsorted
  have hposts : (feedHandler db viewer pageQ limitQ).posts =
      (feedPagePosts db viewer pageQ limitQ).map (fun p =>
        ⟨p, p.likes.contains viewer,
          (db.comments.filter (fun c => c.post == p.id)).length⟩) := by
    simp [feedHandler, annotateLoop_fst]
  rw [hposts, List.pairwise_map]
  exact hpage

/-- C1 counterexample: in a store holding two posts with equal `createdAt`
inserted as id 1 then id 2, the feed returns them with the smaller id
first, so the claimed identifier-descending tie-break does not hold. -/
theorem feed_tie_break_violated :
    ¬ idTieBreakDesc ((feedHandler dbTie 1 none none).posts.map (fun a => a.post)) := by
  decide

/-- C2 (amended): the feed annotates its page with one
`Comment.countDocuments` store call per post of the page (the per-post
loop), not a single grouped count; the annotated results coincide with
those of the single grouped-count computation of the spec, which issues one
store call. -/
theorem feed_annotate_equals_grouped (db : DB) (viewer : Nat) (pageQ limitQ : Option String) :
    (feedHandler db viewer pageQ limitQ).posts =
      (annotateGroupedSpec db viewer (feedPagePosts db viewer pageQ limitQ)).1 ∧
    feedCommentCountOps db viewer pageQ limitQ = (feedPagePosts db viewer pageQ limitQ).length ∧
    (annotateGroupedSpec db viewer (feedPagePosts db viewer pageQ limitQ)).2 = 1 := by
  refine ⟨?_, annotateLoop_snd db viewer _, rfl⟩
  have hposts : (feedHandler db viewer pageQ limitQ).posts =
      (annotateLoop db viewer (feedPagePosts db viewer pageQ limitQ)).1 := by
    simp [feedHandler]
  rw [hposts, annotateLoop_fst]
  unfold annotateGroupedSpec
  simp only
  apply List.map_congr_left
  intro p hp
  have hlook : (((feedPagePosts db viewer pageQ limitQ).map (fun x => x.id)).map
      (fun i => (i, (db.comments.filter (fun c => c.post == i)).length))).lookup p.id =
      some ((db.comments.filter (fun c => c.post == p.id)).length) :=
    lookup_map_count (fun i => (db.comments.filter (fun c => c.post == i)).length)
      p.id _ (List.mem_map_of_mem _ hp)
  rw [List.map_map] at hlook
  simp [hlook]

/-- C2 counterexample: a feed request whose page holds two posts issues
two comment-count store operations, not the single grouped-count operation
the claim states. -/
theorem feed_count_ops_not_single :
    (feedPagePosts dbTwoPosts 1 none none).length = 2 ∧
    feedCommentCountOps dbTwoPosts 1 none none = 2 ∧
    feedCommentCountOps dbTwoPosts 1 none none ≠ 1 := by decide

/-- C8: for every store state and every user, self-follow and self-unfollow
fail with 400 and the self-follow message, and leave the store unchanged. -/
theorem self_follow_unfollow_always_fail (db : DB) (u : Nat) :
    followHandler db u u =
      ({ status := 400, success := false, message := some "You cannot follow yourself" }, db) ∧
    unfollowHandler db u u =
      ({ status := 400, success := false, message := some "You cannot unfollow yourself" }, db) := by
  constructor <;> simp [followHandler, unfollowHandler]

/-- C9: a post is eligible for the feed of a viewer exactly when it is stored
and its author is followed by the viewer or is the viewer; in particular
the own stored posts of the viewer are eligible. -/
theorem feed_eligibility (db : DB) (viewer : Nat) (p : Post) :
    (p ∈ feedCandidates db viewer ↔
      p ∈ db.posts ∧
        ((∃ e ∈ db.follows, e.follower = viewer ∧ e.following = p.user) ∨ p.user = viewer)) ∧
    (p ∈ db.posts → p.user = viewer → p ∈ feedCandidates db viewer) := by
  have hiff : p ∈ feedCandidates db viewer ↔
      p ∈ db.posts ∧
        ((∃ e ∈ db.follows, e.follower = viewer ∧ e.following = p.user) ∨ p.user = viewer) := by
    unfold feedCandidates feedScope
    simp only [List.mem_filter, List.elem_iff, List.mem_append, List.mem_map,
      List.mem_singleton, List.mem_filter, beq_iff_eq]
    constructor
    · rintro ⟨hp, ⟨e, ⟨he, hf⟩, hfo⟩ | hv⟩
      · exact ⟨hp, Or.inl ⟨e, he, hf, hfo⟩⟩
      · exact ⟨hp, Or.inr hv⟩
    · rintro ⟨hp, ⟨e, he, hf, hfo⟩ | hv⟩
      · exact ⟨hp, Or.inl ⟨e, ⟨he, hf⟩, hfo⟩⟩
      · exact ⟨hp, Or.inr hv⟩
  exact ⟨hiff, fun hp hu => hiff.mpr ⟨hp, Or.inr hu⟩⟩

/-- Witness for C9: in `dbFeedSelf`, the own post of viewer 1 (id 2) is
eligible for the feed of viewer 1. -/
theorem feed_eligibility_witness :
    (⟨2, 1, "b.jpg", "", [], 4⟩ : Post) ∈ feedCandidates dbFeedSelf 1 :=
  (feed_eligibility dbFeedSelf 1 ⟨2, 1, "b.jpg", "", [], 4⟩).2 (by decide) rfl

/-- C10: when the `page` query parameter is absent, non-numeric or parses
to 0 the feed is computed for page 1, and likewise `limit` defaults to 10;
the returned pagination metadata reports the substituted values. -/
theorem feed_default_pagination (db : DB) (viewer : Nat) (pageQ limitQ : Option String) :
    ((parseQuery pageQ = none ∨ parseQuery pageQ = some 0) →
      (feedHandler db viewer pageQ limitQ).page = 1 ∧
      feedHandler db viewer pageQ limitQ = feedHandler db viewer (some "1") limitQ) ∧
    ((parseQuery limitQ = none ∨ parseQuery limitQ = some 0) →
      (feedHandler db viewer pageQ limitQ).limit = 10 ∧
      feedHandler db viewer pageQ limitQ = feedHandler db viewer pageQ (some "10")) := by
  have h1 : parseQuery (some "1") = some 1 := by decide
  have h10 : parseQuery (some "10") = some 10 := by decide
  constructor
  · rintro (h | h) <;>
      exact ⟨by simp [feedHandler, jsOr, h],
        by simp [feedHandler, feedPagePosts, jsOr, h, h1]⟩
  · rintro (h | h) <;>
      exact ⟨by simp [feedHandler, jsOr, h],
        by simp [feedHandler, feedPagePosts, jsOr, h, h10]⟩

/-- Witness for C10: with `page` absent and a non-numeric `limit`, the
metadata reports page 1 and limit 10. -/
theorem feed_default_pagination_witness :
    (feedHandler dbFeedSelf 1 none (some "abc")).page = 1 ∧
    (feedHandler dbFeedSelf 1 none (some "abc")).limit = 10 :=
  ⟨((feed_default_pagination dbFeedSelf 1 none (some "abc")).1 (Or.inl rfl)).1,
   ((feed_default_pagination dbFeedSelf 1 none (some "abc")).2 (Or.inl (by decide))).1⟩

/-- C3 (amended): listing the comments of a post always answers 200 — the
route never checks post existence, so a nonexistent post yields a
successful empty list, not a 404. -/
theorem list_comments_always_200 (db : DB) (postId : Nat) :
    (listCommentsHandler db postId).status = 200 ∧
    (listCommentsHandler db postId).success = true ∧
    ((∀ c ∈ db.comments, c.post ≠ postId) → (listCommentsHandler db postId).comments = []) := by
  refine ⟨rfl, rfl, fun hnone => ?_⟩
  unfold listCommentsHandler
  have hnil : db.comments.filter (fun c => c.post == postId) = [] :=
    List.filter_eq_nil_iff.mpr (by intro c hc; simpa using hnone c hc)
  simp [hnil, sortCommentsCreatedDesc]

/-- Witness for C3 (amended): in the empty store, listing comments of the
nonexistent post 5 answers 200 with the empty list. -/
theorem list_comments_always_200_witness :
    (listCommentsHandler dbEmpty 5).status = 200 ∧
    (listCommentsHandler dbEmpty 5).comments = [] :=
  ⟨(list_comments_always_200 dbEmpty 5).1,
   (list_comments_always_200 dbEmpty 5).2.2 (by decide)⟩

/-- C3 counterexample: post 5 does not exist in the empty store, yet
listing its comments answers 200, not the claimed 404. -/
theorem list_comments_missing_post_not_404 :
    getPostById dbEmpty 5 = none ∧
    (listCommentsHandler dbEmpty 5).status = 200 ∧
    (listCommentsHandler dbEmpty 5).status ≠ 404 := by decide

/-- C4 (amended): every error response carries `success:false`; the
input-validation failures of create-post carry the `errors` array and no
`message`, add-comment errors carry a `message` or the `errors` array, and
every other error response carries a `message`. -/
theorem error_responses_success_false (db : DB) (u pid cid target : Nat)
    (url text : String) (cap : Option String) :
    ((createPostHandler db u url cap).1.status ≠ 201 →
      (createPostHandler db u url cap).1.success = false ∧
      (createPostHandler db u url cap).1.message = none ∧
      (createPostHandler db u url cap).1.errors ≠ []) ∧
    ((addCommentHandler db u pid text).1.status ≠ 201 →
      (addCommentHandler db u pid text).1.success = false ∧
      ((addCommentHandler db u pid text).1.message.isSome = true ∨
        (addCommentHandler db u pid text).1.errors ≠ [])) ∧
    ((addCommentHandler db u pid text).1.status = 400 →
      (addCommentHandler db u pid text).1.errors ≠ [] ∧
      (addCommentHandler db u pid text).1.message = none) ∧
    ((addCommentHandler db u pid text).1.status = 404 →
      (addCommentHandler db u pid text).1.message.isSome = true) ∧
    ((deletePostHandler db u pid).1.status ≠ 200 →
      (deletePostHandler db u pid).1.success = false ∧
      (deletePostHandler db u pid).1.message.isSome = true) ∧
    ((likeHandler db u pid).1.status ≠ 200 →
      (likeHandler db u pid).1.success = false ∧
      (likeHandler db u pid).1.message.isSome = true) ∧
    ((unlikeHandler db u pid).1.status ≠ 200 →
      (unlikeHandler db u pid).1.success = false ∧
      (unlikeHandler db u pid).1.message.isSome = true) ∧
    ((followHandler db u target).1.status ≠ 200 →
      (followHandler db u target).1.success = false ∧
      (followHandler db u target).1.message.isSome = true) ∧
    ((unfollowHandler db u target).1.status ≠ 200 →
      (unfollowHandler db u target).1.success = false ∧
      (unfollowHandler db u target).1.message.isSome = true) ∧
    ((deleteCommentHandler db u cid).1.status ≠ 200 →
      (deleteCommentHandler db u cid).1.success = false ∧
      (deleteCommentHandler db u cid).1.message.isSome = true) ∧
    ((getPostHandler db u pid).status ≠ 200 →
      (getPostHandler db u pid).success = false ∧
      (getPostHandler db u pid).message.isSome = true) := by
  refine ⟨?_, ?_, ?_, ?_, ?_, ?_, ?_, ?_, ?_, ?_, ?_⟩
  · by_cases he : createPostErrors url cap = []
    · simp [createPostHandler, List.isEmpty_iff, he]
    · simp [createPostHandler, List.isEmpty_iff, he]
  · by_cases he : addCommentErrors text = []
    · cases hp : getPostById db pid with
      | none => simp [addCommentHandler, List.isEmpty_iff, he, hp]
      | some post => simp [addCommentHandler, List.isEmpty_iff, he, hp]
    · simp [addCommentHandler, List.isEmpty_iff, he]
  · by_cases he : addCommentErrors text = []
    · cases hp : getPostById db pid with
      | none => simp [addCommentHandler, List.isEmpty_iff, he, hp]
      | some post => simp [addCommentHandler, List.isEmpty_iff, he, hp]
    · simp [addCommentHandler, List.isEmpty_iff, he]
  · by_cases he : addCommentErrors text = []
    · cases hp : getPostById db pid with
      | none => simp [addCommentHandler, List.isEmpty_iff, he, hp]
      | some post => simp [addCommentHandler, List.isEmpty_iff, he, hp]
    · simp [addCommentHandler, List.isEmpty_iff, he]
  · cases hp : getPostById db pid with
    | none => simp [deletePostHandler, hp]
    | some post =>
      by_cases ho : post.user = u
      · simp [deletePostHandler, hp, ho]
      · simp [deletePostHandler, hp, ho]
  · cases hp : getPostById db pid with
    | none => simp [likeHandler, hp]
    | some post =>
      by_cases hl : u ∈ post.likes
      · simp [likeHandler, hp, hl]
      · simp [likeHandler, hp, hl]
  · cases hp : getPostById db pid with
    | none => simp [unlikeHandler, hp]
    | some post =>
      by_cases hl : u ∈ post.likes
      · simp [unlikeHandler, hp, hl]
      · simp [unlikeHandler, hp, hl]
  · by_cases ht : target = u
    · simp [followHandler, ht]
    · by_cases hc : target ∈ db.users
      · cases hf : db.follows.find? (fun f => f.follower == u && f.following == target) with
        | none => simp [followHandler, ht, hc, hf]
        | some e => simp [followHandler, ht, hc, hf]
      · simp [followHandler, ht, hc]
  · by_cases ht : target = u
    · simp [unfollowHandler, ht]
    · cases hf : db.follows.find? (fun f => f.follower == u && f.following == target) with
      | none => simp [unfollowHandler, ht, hf]
      | some e => simp [unfollowHandler, ht, hf]
  · cases hc : db.comments.find? (fun c => c.id == cid) with
    | none => simp [deleteCommentHandler, hc]
    | some comment =>
      by_cases ho : comment.user = u
      · simp [deleteCommentHandler, hc, ho]
      · simp [deleteCommentHandler, hc, ho]
  · cases hp : getPostById db pid with
    | none => simp [getPostHandler, hp]
    | some post => simp [getPostHandler, hp]

/-- Witness for C4 (amended): the create-post validation failure on an
empty image URL has `success:false`, no `message` and a non-empty `errors`
array, and so does the add-comment validation failure on empty text. -/
theorem error_responses_success_false_witness :
    ((createPostHandler dbEmpty 1 "" none).1.success = false ∧
     (createPostHandler dbEmpty 1 "" none).1.message = none ∧
     (createPostHandler dbEmpty 1 "" none).1.errors ≠ []) ∧
    ((addCommentHandler dbEmpty 1 0 "").1.errors ≠ [] ∧
     (addCommentHandler dbEmpty 1 0 "").1.message = none) :=
  ⟨(error_responses_success_false dbEmpty 1 0 0 0 "" "" none).1 (by decide),
   (error_responses_success_false dbEmpty 1 0 0 0 "" "" none).2.2.1 (by decide)⟩

/-- C4 counterexample: the validation failure on an empty image URL is an
error response (400, `success:false`) that carries no `message` field,
contrary to the claim that every error carries one. -/
theorem create_post_validation_error_has_no_message :
    (createPostHandler dbEmpty 1 "" none).1.status = 400 ∧
    (createPostHandler dbEmpty 1 "" none).1.success = false ∧
    (createPostHandler dbEmpty 1 "" none).1.message = none := by decide

theorem getPostById_some_id (db : DB) (postId : Nat) (post : Post)
    (h : getPostById db postId = some post) : post.id = postId := by
  unfold getPostById at h
  simpa using List.find?_some h

theorem find?_id_map (k : Nat) (f : Post → Post) (hf : ∀ p, (f p).id = p.id)
    (l : List Post) :
    (l.map f).find? (fun p => p.id == k) = (l.find? (fun p => p.id == k)).map f := by
  induction l with
  | nil => rfl
  | cons p ps ih =>
    by_cases hp : p.id = k
    · simp [List.find?_cons, hf, hp]
    · have h1 : ((f p).id == k) = false := by simp [hf, hp]
      have h2 : (p.id == k) = false := by simp [hp]
      simp [List.find?_cons, h1, h2, ih]

/-- C5: deleting an existing post as its owner succeeds, leaves no comment
referencing the post id, and makes the post unfetchable (404); a delete by
any other requester answers 401 and leaves the store untouched. -/
theorem delete_post_cascade (db : DB) (requester postId : Nat) (post : Post)
    (h : getPostById db postId = some post) :
    (post.user = requester →
      (deletePostHandler db requester postId).1.status = 200 ∧
      ((deletePostHandler db requester postId).2.comments.filter
        (fun c => c.post == postId)) = [] ∧
      getPostHandler (deletePostHandler db requester postId).2 requester postId =
        { status := 404, success := false, message := some "Post not found" }) ∧
    (post.user ≠ requester →
      (deletePostHandler db requester postId).1.status = 401 ∧
      (deletePostHandler db requester postId).1.success = false ∧
      (deletePostHandler db requester postId).2 = db) := by
  have hid : post.id = postId := getPostById_some_id db postId post h
  subst hid
  constructor
  · intro howner
    have hcond : ¬ post.user ≠ requester := fun hne => hne howner
    refine ⟨?_, ?_, ?_⟩
    · simp [deletePostHandler, h, hcond]
    · simp only [deletePostHandler, h, if_neg hcond]
      apply List.filter_eq_nil_iff.mpr
      intro c hc
      have hcm := (List.mem_filter.mp hc).2
      simp at hcm ⊢
      exact hcm
    · have hnone : getPostById (deletePostHandler db requester post.id).2 post.id = none := by
        simp only [deletePostHandler, h, if_neg hcond]
        unfold getPostById
        apply List.find?_eq_none.mpr
        intro p hp
        have hpm := (List.mem_filter.mp hp).2
        simpa using hpm
      simp [getPostHandler, hnone]
  · intro hne
    refine ⟨?_, ?_, ?_⟩ <;> simp [deletePostHandler, h, hne]

/-- Witness for C5: in `dbTwoPosts`, owner 1 deleting post 1 (which has
two comments) leaves no comment referencing id 1, while the attempt of non-owner 2 answers 401 and changes nothing. -/
theorem delete_post_cascade_witness :
    ((deletePostHandler dbTwoPosts 1 1).2.comments.filter (fun c => c.post == 1)) = [] ∧
    (deletePostHandler dbTwoPosts 2 1).1.status = 401 ∧
    (deletePostHandler dbTwoPosts 2 1).2 = dbTwoPosts :=
  ⟨((delete_post_cascade dbTwoPosts 1 1 ⟨1, 1, "a.jpg", "", [], 5⟩ rfl).1 rfl).2.1,
   ((delete_post_cascade dbTwoPosts 2 1 ⟨1, 1, "a.jpg", "", [], 5⟩ rfl).2 (by decide)).1,
   ((delete_post_cascade dbTwoPosts 2 1 ⟨1, 1, "a.jpg", "", [], 5⟩ rfl).2 (by decide)).2.2⟩

/-- C6 (amended): for distinct users with no existing A→B edge, follow
then unfollow restores the store exactly, and a further unfollow fails
with the not-following message and changes nothing.  (When an A→B edge
already exists the follow is a rejected no-op, so the round trip is not
state-restoring — see the counterexample.) -/
theorem follow_unfollow_round_trip (db : DB) (a b : Nat) (hab : a ≠ b)
    (hnoedge : ∀ e ∈ db.follows, ¬(e.follower = a ∧ e.following = b)) :
    (unfollowHandler (followHandler db a b).2 a b).2 = db ∧
    (unfollowHandler (unfollowHandler (followHandler db a b).2 a b).2 a b).1 =
      { status := 400, success := false, message := some "You are not following this user" } ∧
    (unfollowHandler (unfollowHandler (followHandler db a b).2 a b).2 a b).2 =
      (unfollowHandler (followHandler db a b).2 a b).2 := by
  have hba : ¬ b = a := fun hba => hab hba.symm
  have hfind : db.follows.find? (fun f => f.follower == a && f.following == b) = none := by
    apply List.find?_eq_none.mpr
    intro e he hpred
    simp only [Bool.and_eq_true, beq_iff_eq] at hpred
    exact hnoedge e he hpred
  have hround : (unfollowHandler (followHandler db a b).2 a b).2 = db := by
    by_cases hb : b ∈ db.users
    · have hdb1 : (followHandler db a b).2 = { db with follows := db.follows ++ [⟨a, b⟩] } := by
        simp [followHandler, hba, hb, hfind]
      rw [hdb1]
      have hfind1 : (db.follows ++ [(⟨a, b⟩ : FollowEdge)]).find?
          (fun f => f.follower == a && f.following == b) = some ⟨a, b⟩ := by
        rw [List.find?_append, hfind]
        simp
      have herase : (db.follows ++ [(⟨a, b⟩ : FollowEdge)]).eraseP
          (fun f => f.follower == a && f.following == b) = db.follows := by
        rw [List.eraseP_append_right]
        · simp [List.eraseP]
        · intro e he
          exact List.find?_eq_none.mp hfind e he
      simp [unfollowHandler, hba, hfind1, herase]
    · have hdb1 : (followHandler db a b).2 = db := by
        simp [followHandler, hba, hb, hfind]
      rw [hdb1]
      simp [unfollowHandler, hba, hfind]
  refine ⟨hround, ?_, ?_⟩ <;> rw [hround] <;> simp [unfollowHandler, hba, hfind, hround]

/-- Witness for C6 (amended): from the edge-free store `dbNoEdges`,
follow 1→2 then unfollow 1→2 restores the store, and a second unfollow
answers the not-following error. -/
theorem follow_unfollow_round_trip_witness :
    (unfollowHandler (followHandler dbNoEdges 1 2).2 1 2).2 = dbNoEdges ∧
    (unfollowHandler (unfollowHandler (followHandler dbNoEdges 1 2).2 1 2).2 1 2).1 =
      { status := 400, success := false, message := some "You are not following this user" } :=
  ⟨(follow_unfollow_round_trip dbNoEdges 1 2 (by decide) (by decide)).1,
   (follow_unfollow_round_trip dbNoEdges 1 2 (by decide) (by decide)).2.1⟩

/-- C6 counterexample: when user 1 already follows user 2, follow(1→2) is
rejected as a no-op, the subsequent unfollow(1→2) deletes the pre-existing
edge, and the store does not return to its pre-follow state. -/
theorem follow_unfollow_not_round_trip :
    (1 : Nat) ≠ 2 ∧
    (unfollowHandler (followHandler dbFollowing 1 2).2 1 2).2 ≠ dbFollowing := by decide

/-- C7: liking a post the user already likes fails with 400 (Conflict) and
changes nothing; for a user not in the like set, like then unlike restores
the like set of the post — and hence its like count — exactly. -/
theorem like_conflict_and_round_trip (db : DB) (postId userId : Nat) (post : Post)
    (h : getPostById db postId = some post) :
    (userId ∈ post.likes →
      (likeHandler db userId postId).1.status = 400 ∧
      (likeHandler db userId postId).1.success = false ∧
      (likeHandler db userId postId).2 = db) ∧
    (userId ∉ post.likes →
      ((getPostById (unlikeHandler (likeHandler db userId postId).2 userId postId).2 postId).map
        (fun p => p.likes)) = some post.likes ∧
      ((getPostById (unlikeHandler (likeHandler db userId postId).2 userId postId).2 postId).map
        (fun p => p.likes.length)) = some post.likes.length) := by
  have hid : post.id = postId := getPostById_some_id db postId post h
  subst hid
  constructor
  · intro hl
    refine ⟨?_, ?_, ?_⟩ <;> simp [likeHandler, h, hl]
  · intro hl
    have hfid : ∀ p : Post,
        (if p.id == post.id then { p with likes := p.likes ++ [userId] } else p).id = p.id := by
      intro p; by_cases hp : p.id = post.id <;> simp [hp]
    have hgid : ∀ q : Post,
        (if q.id == post.id then
          { q with likes := q.likes.filter (fun i => !(i == userId)) } else q).id = q.id := by
      intro q; by_cases hq : q.id = post.id <;> simp [hq]
    have hdb1 : (likeHandler db userId post.id).2 =
        { db with posts := db.posts.map (fun p =>
            if p.id == post.id then { p with likes := p.likes ++ [userId] } else p) } := by
      simp [likeHandler, h, hl]
    have hfind1 : getPostById (likeHandler db userId post.id).2 post.id =
        some { post with likes := post.likes ++ [userId] } := by
      rw [hdb1]
      unfold getPostById
      simp only
      rw [find?_id_map post.id _ hfid db.posts]
      unfold getPostById at h
      rw [h]
      simp
    have hl2 : userId ∈ ({ post with likes := post.likes ++ [userId] } : Post).likes := by simp
    have hdb2 : (unlikeHandler (likeHandler db userId post.id).2 userId post.id).2 =
        { (likeHandler db userId post.id).2 with
          posts := ((likeHandler db userId post.id).2).posts.map (fun q =>
            if q.id == post.id then
              { q with likes := q.likes.filter (fun i => !(i == userId)) } else q) } := by
      simp [unlikeHandler, hfind1, hl2]
    have hkeep : post.likes.filter (fun i => !(i == userId)) = post.likes := by
      apply List.filter_eq_self.mpr
      intro i hi
      simp only [Bool.not_eq_eq_eq_not, Bool.not_true, beq_eq_false_iff_ne, ne_eq]
      exact fun he => hl (he ▸ hi)
    have hfinal : getPostById
        (unlikeHandler (likeHandler db userId post.id).2 userId post.id).2 post.id =
        some post := by
      rw [hdb2, hdb1]
      unfold getPostById
      simp only
      rw [find?_id_map post.id _ hgid, find?_id_map post.id _ hfid]
      unfold getPostById at h
      rw [h]
      simp [List.filter_append, hkeep]
    rw [hfinal]
    exact ⟨rfl, rfl⟩

/-- Witness for C7: in `dbLikes`, user 7 re-liking post 1 (already liked)
gets a 400, and like-then-unlike on post 2 leaves its like set `[]` as
before. -/
theorem like_conflict_and_round_trip_witness :
    (likeHandler dbLikes 7 1).1.status = 400 ∧
    ((getPostById (unlikeHandler (likeHandler dbLikes 7 2).2 7 2).2 2).map
      (fun p => p.likes)) = some [] :=
  ⟨((like_conflict_and_round_trip dbLikes 1 7 ⟨1, 1, "a.jpg", "", [7], 5⟩ rfl).1 (by decide)).1,
   ((like_conflict_and_round_trip dbLikes 2 7 ⟨2, 1, "b.jpg", "", [], 6⟩ rfl).2 (by decide)).1⟩

end Instamini
